import Mathlib

/-!
Verification of `streamlit_app_multi.py` (video audio extractor).

Shallow embedding conventions:
* The file system is a list of existing paths (`FS`); `os.path.exists` is
  list membership.
* A raised Python exception is an `Except.error` carrying an
  `ExtractorError`; a `try/except` block is a `match` on that `Except`.
  Where side effects happen before the raise, the error value also carries
  the state at the moment of the raise.
* External-world behaviour (the `ffmpeg` subprocess, the MoviePy decoder,
  the pydub encoder, `ffprobe`) is supplied by explicit environment
  records; the Python functions are deterministic given that environment.
* The Streamlit session log (`st.session_state.log_messages`) is a
  `List String` threaded through the state.
-/

namespace VideoAudioExtractor

/-- File system: the list of paths that currently exist on disk. -/
abbrev FS := List String

/-- Model of `os.path.exists`. -/
def fsHas (fs : FS) (p : String) : Bool := fs.contains p

/-- Creating a file at a path (idempotent existence-wise; we keep one copy). -/
def fsAdd (fs : FS) (p : String) : FS := if fsHas fs p then fs else fs ++ [p]

/-- Deleting a file at a path (`os.remove`). -/
def fsDel (fs : FS) (p : String) : FS := fs.filter (fun q => q ≠ p)

/-- Python exceptions raised by this program. -/
inductive ExtractorError where
  /-- `FileNotFoundError` -/
  | fileNotFound (msg : String)
  /-- `ValueError` -/
  | valueError (msg : String)
  /-- any other exception (from a library or OS call) -/
  | other (msg : String)
deriving Repr, DecidableEq

/-- The message text used when an exception is interpolated into a log
line (Python `f"... {e}"`). -/
def errText : ExtractorError → String
  | .fileNotFound m => m
  | .valueError m => m
  | .other m => m

/- ### Python path helpers (`pathlib.Path`, `os.path`)

Implemented by structural recursion on character lists so that every
definition evaluates by kernel reduction (the core `String` functions use
well-founded recursion and do not). -/

/-- Split a character list into the components between `/` separators. -/
def splitSlash : List Char → List (List Char)
  | [] => [[]]
  | c :: rest =>
    let r := splitSlash rest
    if c = '/' then [] :: r
    else
      match r with
      | [] => [[c]]
      | g :: gs => (c :: g) :: gs

/-- Join character-list components with `/` separators. -/
def joinSlash : List (List Char) → List Char
  | [] => []
  | [x] => x
  | x :: y :: rest => x ++ '/' :: joinSlash (y :: rest)

/-- Model of `os.path.basename`: the part after the last slash. -/
def pyBasename (p : String) : String :=
  String.mk ((splitSlash p.toList).getLastD [])

/-- Model of `pathlib.Path(p).name`: last non-empty path component
(`pathlib` ignores empty components from doubled or trailing slashes). -/
def pyPathName (p : String) : String :=
  String.mk (((splitSlash p.toList).filter (fun c => c ≠ [])).getLastD [])

/-- Index of the last dot in a list of characters, if any. -/
def lastDotIdx (cs : List Char) : Option Nat :=
  match (cs.reverse).findIdx? (fun c => c = '.') with
  | none => none
  | some j => some (cs.length - 1 - j)

/-- Model of `pathlib.Path(p).suffix`: `name[i:]` for `i` the index of the
last dot of the final component, provided `0 < i < len(name) - 1`;
otherwise the empty string. -/
def pyPathSuffix (p : String) : String :=
  let name := pyPathName p
  let cs := name.toList
  match lastDotIdx cs with
  | none => ""
  | some i => if 0 < i ∧ i < cs.length - 1 then String.mk (cs.drop i) else ""

/-- Model of `pathlib.Path(p).stem`: the final component minus its suffix. -/
def pyPathStem (p : String) : String :=
  let cs := (pyPathName p).toList
  String.mk (cs.take (cs.length - (pyPathSuffix p).toList.length))

/-- Model of `os.path.dirname`: everything before the last slash
(empty when the path has no slash). -/
def pyDirname (p : String) : String :=
  let parts := splitSlash p.toList
  if parts.length ≤ 1 then "" else String.mk (joinSlash parts.dropLast)

/-- ASCII lower-casing of a character list (model of `str.lower()` on the
ASCII file extensions this program compares). -/
def lowerChars : List Char → List Char
  | [] => []
  | c :: rest =>
    (if 'A' ≤ c ∧ c ≤ 'Z' then Char.ofNat (c.toNat + 32) else c) :: lowerChars rest

/-- Model of `str.lower()`. -/
def pyLower (s : String) : String := String.mk (lowerChars s.toList)

/-- Model of `str.endswith(suffix)`. -/
def pyEndsWith (s suffix : String) : Bool :=
  suffix.toList.isSuffixOf s.toList

/-- Fuel-driven replacement of every occurrence of `pat` in `cs` by `rep`
(the fuel `cs.length` always suffices: each step consumes at least one
character). -/
def replaceFuel : Nat → List Char → List Char → List Char → List Char
  | 0, cs, _, _ => cs
  | _ + 1, [], _, _ => []
  | n + 1, c :: rest, pat, rep =>
    if pat ≠ [] ∧ pat.isPrefixOf (c :: rest) then
      rep ++ replaceFuel n (List.drop pat.length (c :: rest)) pat rep
    else c :: replaceFuel n rest pat rep

/-- Model of `str.replace(pat, rep)` for a non-empty `pat` (every call
site in this program passes the non-empty suffix of a validated output
path). -/
def pyReplace (s pat rep : String) : String :=
  String.mk (replaceFuel s.toList.length s.toList pat.toList rep.toList)

/-- Join a list of strings with single spaces (model of `" ".join(cmd)`). -/
def joinSpace : List String → String
  | [] => ""
  | [x] => x
  | x :: y :: rest => x ++ " " ++ joinSpace (y :: rest)

/- ### `AudioExtractor.__init__`: the two allow-lists -/

/-- `self.supported_video_formats` from `AudioExtractor.__init__`. -/
def supported_video_formats : List String :=
  [".mp4", ".avi", ".mkv", ".mov", ".wmv", ".flv", ".webm", ".m4v"]

/-- `self.supported_audio_formats` from `AudioExtractor.__init__`. -/
def supported_audio_formats : List String :=
  [".mp3", ".flac", ".wav", ".aac", ".ogg"]

/- ### Format Validator -/

/-- `AudioExtractor.validate_input_file` (lines 32-41).  Raises
`FileNotFoundError` when the path does not exist, raises `ValueError`
when the (lower-cased) suffix is not a supported video format, and
returns `True` otherwise. -/
def validate_input_file (fs : FS) (input_path : String) :
    Except ExtractorError Bool :=
  if ¬ fsHas fs input_path then
    .error (.fileNotFound ("입력 파일을 찾을 수 없습니다: " ++ input_path))
  else
    let file_ext := pyLower (pyPathSuffix input_path)
    if ¬ supported_video_formats.contains file_ext then
      .error (.valueError ("지원하지 않는 비디오 형식입니다: " ++ file_ext))
    else
      .ok true

/-- `AudioExtractor.validate_output_format` (lines 43-49).  Raises
`ValueError` when the (lower-cased) suffix is not a supported audio
format, and returns the suffix otherwise.  It performs no existence
check: it is a function of the path string alone. -/
def validate_output_format (output_path : String) :
    Except ExtractorError String :=
  let file_ext := pyLower (pyPathSuffix output_path)
  if ¬ supported_audio_formats.contains file_ext then
    .error (.valueError ("지원하지 않는 오디오 형식입니다: " ++ file_ext))
  else
    .ok file_ext

/- ### Program state -/

/-- The state a run of the extractor threads: the file system, the session
log, and whether the MoviePy decoder handles are currently open. -/
structure SysState where
  fs : FS
  log : List String
  videoOpen : Bool := false
  audioOpen : Bool := false
deriving Repr, DecidableEq

/-- Append one line to the session log
(`st.session_state.log_messages.append`). -/
def logAdd (s : SysState) (m : String) : SysState :=
  { s with log := s.log ++ [m] }

/-- Create a file. -/
def addFile (s : SysState) (p : String) : SysState :=
  { s with fs := fsAdd s.fs p }

/-- Delete a file. -/
def delFile (s : SysState) (p : String) : SysState :=
  { s with fs := fsDel s.fs p }

/- ### Primary Extractor (`extract_audio_with_ffmpeg`, lines 51-125) -/

/-- The ffmpeg command list built by `extract_audio_with_ffmpeg`, exactly
as in the four branches of the source (lines 56-111). -/
def ffmpegCmd (input_path output_path format_type : String) : List String :=
  if format_type = ".mp3" then
    ["ffmpeg", "-i", input_path, "-vn", "-acodec", "libmp3lame",
     "-ab", "320k", "-ar", "44100", "-ac", "2", "-y", output_path]
  else if format_type = ".flac" then
    ["ffmpeg", "-i", input_path, "-vn", "-acodec", "flac",
     "-compression_level", "8", "-y", output_path]
  else if format_type = ".wav" then
    ["ffmpeg", "-i", input_path, "-vn", "-acodec", "pcm_s16le",
     "-y", output_path]
  else
    ["ffmpeg", "-i", input_path, "-vn", "-acodec", "copy",
     "-y", output_path]

/-- Behaviour of one `subprocess.run(cmd, ...)` invocation of ffmpeg,
supplied by the environment: either `subprocess.run` itself raises (e.g.
the binary is missing), or it completes with an exit code and stderr
text, having created the output file or not (a failing run may still
leave a partial output file). -/
structure FfmpegBehavior where
  raises : Option String := none
  returncode : Int := 0
  stderr : String := ""
  createsOutput : Bool := true
deriving Repr, DecidableEq

/-- `AudioExtractor.extract_audio_with_ffmpeg` (lines 51-125).  Builds the
format-specific command, runs it as a blocking subprocess, and returns
`True` exactly when the exit code is 0; a non-zero exit logs stderr and
returns `False`; any exception in the `try` block is caught, logged, and
turned into `False`. -/
def extract_audio_with_ffmpeg (env : FfmpegBehavior) (s : SysState)
    (input_path output_path format_type : String) : Bool × SysState :=
  let cmd := ffmpegCmd input_path output_path format_type
  let s := logAdd s ("ffmpeg 명령어 실행: " ++ joinSpace cmd)
  match env.raises with
  | some e => (false, logAdd s ("ffmpeg 추출 중 오류 발생: " ++ e))
  | none =>
    let s := if env.createsOutput then addFile s output_path else s
    if env.returncode ≠ 0 then
      (false, logAdd s ("ffmpeg 오류: " ++ env.stderr))
    else
      (true, logAdd s ("오디오 추출 완료: " ++ output_path))

/- ### Fallback Extractor (`extract_audio_with_moviepy`, lines 127-155)
and converter (`convert_audio_format`, lines 157-177) -/

/-- Behaviour of the pydub calls inside `convert_audio_format`:
`AudioSegment.from_wav` and `export` may each raise; a failing `export`
may still have created a partial output file. -/
structure ConvEnv where
  fromWavRaises : Option String := none
  exportRaises : Option String := none
  exportCreatedBeforeRaise : Bool := false
deriving Repr, DecidableEq

/-- `AudioExtractor.convert_audio_format` (lines 157-177).  Loads the
intermediate WAV with pydub and exports it in the format given by the
output path's extension (mp3 at 320k, flac, or the extension verbatim).
Any exception is caught, logged, and turned into a `False` return; on
success the output file exists and `True` is returned. -/
def convert_audio_format (env : ConvEnv) (s : SysState)
    (input_audio_path output_path : String) : Bool × SysState :=
  match env.fromWavRaises with
  | some e => (false, logAdd s ("오디오 형식 변환 중 오류 발생: " ++ e))
  | none =>
    -- output_format = Path(output_path).suffix[1:]; the mp3/flac/other
    -- branches differ only in the pydub export arguments, which the
    -- environment abstracts; the modelled effect is the same.
    let _output_format := (pyPathSuffix output_path).toList.drop 1
    match env.exportRaises with
    | some e =>
      let s := if env.exportCreatedBeforeRaise then addFile s output_path else s
      (false, logAdd s ("오디오 형식 변환 중 오류 발생: " ++ e))
    | none => (true, addFile s output_path)

/-- Behaviour of the MoviePy calls inside `extract_audio_with_moviepy`:
`VideoFileClip` may raise; `video.audio` may be `None` (no audio track),
in which case `audio.write_audiofile` raises an `AttributeError`;
`write_audiofile` may itself raise, having created the temp file or not;
and the nested `convert_audio_format` call has its own behaviour. -/
structure MoviepyEnv where
  openRaises : Option String := none
  audioIsNone : Bool := false
  writeRaises : Option String := none
  writeCreatedBeforeRaise : Bool := false
  conv : ConvEnv := {}
deriving Repr, DecidableEq

/-- The `try` block of `extract_audio_with_moviepy` (lines 131-151).  An
`Except.error` is a raised exception, carrying the state at the moment of
the raise. -/
def moviepyBody (env : MoviepyEnv) (s : SysState)
    (input_path output_path : String) :
    Except (ExtractorError × SysState) SysState :=
  let s := logAdd s "MoviePy를 사용하여 오디오 추출 중..."
  -- video = VideoFileClip(input_path)
  match env.openRaises with
  | some e => .error (.other e, s)
  | none =>
  let s := { s with videoOpen := true }
  -- audio = video.audio  (None when the video has no audio track)
  let s := { s with audioOpen := ¬ env.audioIsNone }
  -- temp_wav = output_path.replace(Path(output_path).suffix, "_temp.wav")
  let temp_wav := pyReplace output_path (pyPathSuffix output_path) "_temp.wav"
  -- audio.write_audiofile(temp_wav, verbose=False, logger=None)
  if env.audioIsNone then
    .error (.other "AttributeError: NoneType object has no attribute write_audiofile", s)
  else
  match env.writeRaises with
  | some e =>
    .error (.other e, if env.writeCreatedBeforeRaise then addFile s temp_wav else s)
  | none =>
  let s := addFile s temp_wav
  let s :=
    if ¬ pyEndsWith output_path ".wav" then
      -- self.convert_audio_format(temp_wav, output_path)  (result discarded)
      let (_converted, s) := convert_audio_format env.conv s temp_wav output_path
      -- os.remove(temp_wav)
      delFile s temp_wav
    else
      -- os.rename(temp_wav, output_path)
      addFile (delFile s temp_wav) output_path
  -- video.close(); audio.close()
  let s := { s with videoOpen := false, audioOpen := false }
  .ok (logAdd s ("MoviePy로 오디오 추출 완료: " ++ output_path))

/-- `AudioExtractor.extract_audio_with_moviepy` (lines 127-155): the `try`
body above wrapped in `except Exception`, which logs the exception and
returns `False`; the body's final statement returns `True`. -/
def extract_audio_with_moviepy (env : MoviepyEnv) (s : SysState)
    (input_path output_path : String) : Bool × SysState :=
  match moviepyBody env s input_path output_path with
  | .ok s' => (true, s')
  | .error (e, s') => (false, logAdd s' ("MoviePy 추출 중 오류 발생: " ++ errText e))

/- ### Media Inspector (`get_audio_info`, lines 179-215) -/

/-- The structured result of probing a file: codec name, sample rate,
channels, bit rate, duration (the Python float is kept as the string the
log renders; the inspector is diagnostic only). -/
structure AudioInfo where
  codec : String := "aac"
  sample_rate : String := "44100"
  channels : String := "2"
  bit_rate : String := "128000"
  duration : String := "0.00"
deriving Repr, DecidableEq

/-- `AudioExtractor.get_audio_info` (lines 179-215).  Runs `ffprobe` as a
subprocess and parses the first audio stream from its JSON output.  The
probing outcome is supplied by the environment (`res`); the function
returns `None` on a non-zero exit or when no audio stream is present, and
its internal `try/except` means it never raises to its caller. -/
def get_audio_info (res : Option AudioInfo) (s : SysState)
    (file_path : String) : Option AudioInfo × SysState :=
  let _cmd := ["ffprobe", "-v", "quiet", "-print_format", "json",
               "-show_format", "-show_streams", file_path]
  (res, s)

/-- The log lines appended by `extract_audio` for a probed `AudioInfo`
block (lines 240-245 for the original, 260-265 for the extracted file). -/
def infoLogLines (title : String) (info : AudioInfo) : List String :=
  [title,
   "  코덱: " ++ info.codec,
   "  샘플레이트: " ++ info.sample_rate ++ " Hz",
   "  채널: " ++ info.channels,
   "  비트레이트: " ++ info.bit_rate ++ " bps",
   "  길이: " ++ info.duration ++ " 초"]

/- ### Orchestrator (`extract_audio`, lines 217-279) -/

/-- Environment for one `extract_audio` call: the behaviour of the ffmpeg
subprocess, of the MoviePy/pydub fallback, the two probe outcomes, and
the size reported by `os.path.getsize` (rendered into the log as MB text
by the environment, abstracting Python's float formatting). -/
structure ExtractEnv where
  ffmpeg : FfmpegBehavior := {}
  moviepy : MoviepyEnv := {}
  probeIn : Option AudioInfo := none
  probeOut : Option AudioInfo := none
  sizeText : String := "0.00"
deriving Repr, DecidableEq

/-- The `try` block of `extract_audio` (lines 221-275): validate input
and output, create the output directory, log, probe, run the primary
extractor, fall back to MoviePy on failure, and succeed exactly when the
reported success flag holds and the output file exists. -/
def extractAudioBody (env : ExtractEnv) (s : SysState)
    (input_path output_path : String) :
    Except (ExtractorError × SysState) (Bool × SysState) :=
  match validate_input_file s.fs input_path with
  | .error e => .error (e, s)
  | .ok _ =>
  match validate_output_format output_path with
  | .error e => .error (e, s)
  | .ok output_format =>
  -- output_dir = os.path.dirname(output_path); os.makedirs if missing
  let output_dir := pyDirname output_path
  let s := if output_dir ≠ "" ∧ ¬ fsHas s.fs output_dir then addFile s output_dir else s
  let s := logAdd s ("입력 파일: " ++ input_path)
  let s := logAdd s ("출력 파일: " ++ output_path)
  let s := logAdd s ("출력 형식: " ++ output_format)
  -- video_info = self.get_audio_info(input_path)
  let (video_info, s) := get_audio_info env.probeIn s input_path
  let s :=
    match video_info with
    | some info => { s with log := s.log ++ infoLogLines "원본 오디오 정보:" info }
    | none => s
  -- success = self.extract_audio_with_ffmpeg(...)
  let (success, s) := extract_audio_with_ffmpeg env.ffmpeg s input_path output_path output_format
  -- if not success: retry with MoviePy
  let (success, s) :=
    if ¬ success then
      let s := logAdd s "ffmpeg 추출 실패, MoviePy로 재시도..."
      extract_audio_with_moviepy env.moviepy s input_path output_path
    else (success, s)
  if success ∧ fsHas s.fs output_path then
    let (extracted_info, s) := get_audio_info env.probeOut s output_path
    let s :=
      match extracted_info with
      | some info => { s with log := s.log ++ infoLogLines "추출된 오디오 정보:" info }
      | none => s
    let s := logAdd s ("파일 크기: " ++ env.sizeText ++ " MB")
    let s := logAdd s "오디오 추출이 성공적으로 완료되었습니다!"
    .ok (true, s)
  else
    let s := logAdd s "오디오 추출에 실패했습니다."
    .ok (false, s)

/-- `AudioExtractor.extract_audio` (lines 217-279): the `try` body above
wrapped in `except Exception`, which logs the exception and returns
`False`.  Always returns a boolean; no exception escapes. -/
def extract_audio (env : ExtractEnv) (s : SysState)
    (input_path output_path : String) : Bool × SysState :=
  match extractAudioBody env s input_path output_path with
  | .ok r => r
  | .error (e, s') => (false, logAdd s' ("오류 발생: " ++ errText e))

/- ### Bundler (`create_zip_file`, lines 282-290) -/

/-- `create_zip_file` (lines 282-290).  The in-memory archive is modelled
as the list of its entries, each a pair (archive name, source path): for
every path in the list that exists, one entry under its base name is
written; missing paths are skipped.  The `zip_name` argument is unused by
the source as well. -/
def create_zip_file (fs : FS) (file_paths : List String)
    (zip_name : String) : List (String × String) :=
  let _ := zip_name
  (file_paths.filter (fun p => fsHas fs p)).map (fun p => (pyBasename p, p))

/- ### Batch orchestration loop (lines 352-404) -/

/-- Session state of one batch run: the system state plus the collected
output paths (`st.session_state.output_audio_paths`) and the success
tally (`successful_extractions`). -/
structure BatchState where
  sys : SysState
  output_audio_paths : List String := []
  successful_extractions : Nat := 0
deriving Repr, DecidableEq

/-- The per-item log header `=== 파일 i+1/total: name ===` (line 384). -/
def headerLine (i total : Nat) (name : String) : String :=
  "=== 파일 " ++ toString (i + 1) ++ "/" ++ toString total ++ ": " ++ name ++ " ==="

/-- The output path derived for an uploaded `name` (lines 376-382):
`/tmp/{prefix}_{stem}.{format}` when a prefix is set, `/tmp/{stem}.{format}`
otherwise. -/
def outputPathFor (fmt pre name : String) : String :=
  if pre ≠ "" then "/tmp/" ++ (pre ++ "_" ++ pyPathStem name ++ "." ++ fmt)
  else "/tmp/" ++ (pyPathStem name ++ "." ++ fmt)

/-- The `extract_audio` call made for one uploaded item, on the state as
it stands right after staging the upload (lines 371-373) and logging the
header (line 384). -/
def itemExtract (fmt pre : String) (total : Nat) (env : ExtractEnv)
    (i : Nat) (st : BatchState) (name : String) : Bool × SysState :=
  extract_audio env
    (logAdd (addFile st.sys ("/tmp/" ++ name)) (headerLine i total name))
    ("/tmp/" ++ name) (outputPathFor fmt pre name)

/-- One iteration of the upload loop (lines 367-401) for file number `i`
(0-based) named `name`: stage the upload to `/tmp`, derive the output
name from the stem, the optional prefix `pre` and the chosen format
`fmt`, run `extract_audio`, on success record the output path and bump
the tally, and always delete the staged input. -/
def processOne (fmt pre : String) (total : Nat) (env : ExtractEnv)
    (i : Nat) (st : BatchState) (name : String) : BatchState :=
  -- input_video_path = os.path.join("/tmp", uploaded_file.name); f.write(...)
  let input_video_path := "/tmp/" ++ name
  let output_audio_path := outputPathFor fmt pre name
  -- success = extractor.extract_audio(input_video_path, output_audio_path)
  let (success, sys) := itemExtract fmt pre total env i st name
  let st :=
    if success then
      { st with sys := logAdd sys ("✅ " ++ name ++ " 추출 완료!"),
                output_audio_paths := st.output_audio_paths ++ [output_audio_path],
                successful_extractions := st.successful_extractions + 1 }
    else
      { st with sys := logAdd sys ("❌ " ++ name ++ " 추출 실패!") }
  -- if os.path.exists(input_video_path): os.remove(input_video_path)
  if fsHas st.sys.fs input_video_path then
    { st with sys := delFile st.sys input_video_path }
  else st

/-- The upload loop over the remaining items, carrying the 0-based index
`i`; each item comes with the environment describing the external world
during its processing. -/
def runBatchAux (fmt pre : String) (total : Nat) :
    List (String × ExtractEnv) → Nat → BatchState → BatchState
  | [], _, st => st
  | (name, env) :: rest, i, st =>
    runBatchAux fmt pre total rest (i + 1) (processOne fmt pre total env i st name)

/-- One full batch run (lines 352-404): the log, the output list and the
tally are reset (lines 354-355, 365), then every uploaded file is
processed in order. -/
def batchRun (fmt pre : String) (items : List (String × ExtractEnv))
    (fs : FS) : BatchState :=
  runBatchAux fmt pre items.length items 0
    { sys := { fs := fs, log := [] },
      output_audio_paths := [], successful_extractions := 0 }

/- ### Download section (lines 413-442) -/

/-- Individual download (lines 417-429): the paths actually opened and
read, namely those output paths that still exist when the buttons are
rendered (`if os.path.exists(output_path)`). -/
def individualDownloadReads (fs : FS) (paths : List String) : List String :=
  paths.filter (fun p => fsHas fs p)

/-- ZIP download (lines 431-442): the existing outputs are re-filtered
(`existing_files`) and handed to `create_zip_file`. -/
def zipDownloadData (fs : FS) (paths : List String) (fmt : String) :
    List (String × String) :=
  let existing_files := paths.filter (fun p => fsHas fs p)
  create_zip_file fs existing_files ("extracted_audio_" ++ fmt ++ ".zip")

/- ### Basic lemmas about the state primitives -/

theorem fsHas_iff {fs : FS} {p : String} : fsHas fs p = true ↔ p ∈ fs := by
  simp [fsHas, List.contains, List.elem_iff]

theorem fsHas_fsAdd_self (fs : FS) (p : String) : fsHas (fsAdd fs p) p = true := by
  unfold fsAdd
  split
  · assumption
  · simp [fsHas_iff]

theorem fsHas_fsDel_self (fs : FS) (p : String) : fsHas (fsDel fs p) p = false := by
  rw [← Bool.not_eq_true]
  intro hmem
  rw [fsHas_iff] at hmem
  simp [fsDel] at hmem

@[simp] theorem logAdd_fs (s : SysState) (m : String) : (logAdd s m).fs = s.fs := rfl

@[simp] theorem logAdd_log (s : SysState) (m : String) :
    (logAdd s m).log = s.log ++ [m] := rfl

@[simp] theorem addFile_log (s : SysState) (p : String) : (addFile s p).log = s.log := rfl

@[simp] theorem delFile_log (s : SysState) (p : String) : (delFile s p).log = s.log := rfl

@[simp] theorem addFile_fs (s : SysState) (p : String) :
    (addFile s p).fs = fsAdd s.fs p := rfl

@[simp] theorem delFile_fs (s : SysState) (p : String) :
    (delFile s p).fs = fsDel s.fs p := rfl

@[simp] theorem logAdd_videoOpen (s : SysState) (m : String) :
    (logAdd s m).videoOpen = s.videoOpen := rfl

@[simp] theorem logAdd_audioOpen (s : SysState) (m : String) :
    (logAdd s m).audioOpen = s.audioOpen := rfl

@[simp] theorem addFile_videoOpen (s : SysState) (p : String) :
    (addFile s p).videoOpen = s.videoOpen := rfl

@[simp] theorem addFile_audioOpen (s : SysState) (p : String) :
    (addFile s p).audioOpen = s.audioOpen := rfl

@[simp] theorem delFile_videoOpen (s : SysState) (p : String) :
    (delFile s p).videoOpen = s.videoOpen := rfl

@[simp] theorem delFile_audioOpen (s : SysState) (p : String) :
    (delFile s p).audioOpen = s.audioOpen := rfl

@[simp] theorem get_audio_info_eq (r : Option AudioInfo) (s : SysState) (f : String) :
    get_audio_info r s f = (r, s) := rfl

/- ### The session log only grows -/

theorem log_le_append (l t : List String) : l <+: l ++ t := ⟨t, rfl⟩

theorem log_le_append_of_le {l₁ l₂ : List String} (t : List String)
    (h : l₁ <+: l₂) : l₁ <+: l₂ ++ t :=
  h.trans (log_le_append l₂ t)

theorem convert_log_grows (env : ConvEnv) (s : SysState) (a b : String) :
    s.log <+: (convert_audio_format env s a b).2.log := by
  unfold convert_audio_format
  split
  · exact log_le_append _ _
  · split
    · split <;> exact log_le_append _ _
    · exact List.prefix_rfl

theorem convert_snd_log_grows {env : ConvEnv} {s : SysState} {a b : String}
    {p : Bool} {s₂ : SysState} (heq : convert_audio_format env s a b = (p, s₂)) :
    s.log <+: s₂.log := by
  have h := convert_log_grows env s a b
  rw [heq] at h
  exact h

theorem ffmpeg_log_grows (env : FfmpegBehavior) (s : SysState)
    (i o f : String) :
    s.log <+: (extract_audio_with_ffmpeg env s i o f).2.log := by
  unfold extract_audio_with_ffmpeg
  split
  · simp only [logAdd_log, List.append_assoc]
    exact log_le_append _ _
  · split <;>
    · simp only [logAdd_log, addFile_log, List.append_assoc]
      split <;>
      · simp only [logAdd_log, addFile_log, List.append_assoc]
        exact log_le_append _ _

theorem moviepyBody_ok_log_grows (env : MoviepyEnv) (s : SysState)
    (i o : String) (s' : SysState) (h : moviepyBody env s i o = .ok s') :
    s.log <+: s'.log := by
  unfold moviepyBody at h
  split at h
  · simp at h
  · split at h
    · simp at h
    · split at h
      · simp at h
      · split at h
        · -- conversion branch: the pair let becomes a `.2` projection
          dsimp only at h
          simp only [Except.ok.injEq] at h
          subst h
          simp only [logAdd_log, delFile_log]
          refine log_le_append_of_le _ ?_
          refine List.IsPrefix.trans ?_ (convert_log_grows env.conv _ _ _)
          simp only [addFile_log, logAdd_log]
          exact log_le_append _ _
        · -- rename branch
          simp only [Except.ok.injEq] at h
          subst h
          simp only [logAdd_log, addFile_log, delFile_log, List.append_assoc]
          exact log_le_append _ _

theorem moviepyBody_err_log_grows (env : MoviepyEnv) (s : SysState)
    (i o : String) (e : ExtractorError) (s' : SysState)
    (h : moviepyBody env s i o = .error (e, s')) :
    s.log <+: s'.log := by
  unfold moviepyBody at h
  split at h
  · simp only [Except.error.injEq, Prod.mk.injEq] at h
    obtain ⟨-, hs⟩ := h
    subst hs
    simp only [logAdd_log]
    exact log_le_append _ _
  · split at h
    · simp only [Except.error.injEq, Prod.mk.injEq] at h
      obtain ⟨-, hs⟩ := h
      subst hs
      simp only [logAdd_log]
      exact log_le_append _ _
    · split at h
      · simp only [Except.error.injEq, Prod.mk.injEq] at h
        obtain ⟨-, hs⟩ := h
        subst hs
        split <;>
        · simp only [logAdd_log, addFile_log]
          exact log_le_append _ _
      · split at h
        · dsimp only at h
          simp at h
        · simp at h

theorem moviepy_log_grows (env : MoviepyEnv) (s : SysState) (i o : String) :
    s.log <+: (extract_audio_with_moviepy env s i o).2.log := by
  unfold extract_audio_with_moviepy
  split
  · exact moviepyBody_ok_log_grows env s i o _ (by assumption)
  · rename_i e s' heq
    simp only [logAdd_log]
    exact log_le_append_of_le _ (moviepyBody_err_log_grows env s i o e s' heq)

theorem extractAudioBody_ok_log_grows (env : ExtractEnv) (s : SysState)
    (i o : String) (b : Bool) (s' : SysState)
    (h : extractAudioBody env s i o = .ok (b, s')) : s.log <+: s'.log := by
  unfold extractAudioBody at h
  dsimp only [get_audio_info_eq] at h
  cases hpi : env.probeIn <;> cases hpo : env.probeOut <;>
    rw [hpi, hpo] at h <;> dsimp only at h <;>
    repeat' split at h
  all_goals
    try (simp at h; done)
  all_goals
    simp only [Except.ok.injEq, Prod.mk.injEq] at h
  all_goals
    (obtain ⟨-, hs⟩ := h; subst hs)
  all_goals
    repeat
      first
      | exact List.prefix_rfl
      | exact log_le_append _ _
      | refine List.IsPrefix.trans ?_ (moviepy_log_grows _ _ _ _)
      | refine List.IsPrefix.trans ?_ (ffmpeg_log_grows _ _ _ _ _)
      | refine log_le_append_of_le _ ?_
      | simp only [logAdd_log, addFile_log, delFile_log, List.append_assoc]
      | dsimp only

/-- The `try` body of `extract_audio` raises only from the two validators,
before any side effect: the state carried by the exception is the input
state. -/
theorem extractAudioBody_err_state (env : ExtractEnv) (s : SysState)
    (i o : String) (e : ExtractorError) (s' : SysState)
    (h : extractAudioBody env s i o = .error (e, s')) : s' = s := by
  unfold extractAudioBody at h
  dsimp only [get_audio_info_eq] at h
  cases hpi : env.probeIn <;> cases hpo : env.probeOut <;>
    rw [hpi, hpo] at h <;> dsimp only at h <;>
    repeat' split at h
  all_goals
    try (simp at h; done)
  all_goals
    simp only [Except.error.injEq, Prod.mk.injEq] at h
  all_goals
    (obtain ⟨-, hs⟩ := h
     first
     | exact hs
     | exact hs.symm)

theorem extract_audio_log_grows (env : ExtractEnv) (s : SysState)
    (i o : String) : s.log <+: (extract_audio env s i o).2.log := by
  unfold extract_audio
  split
  · rename_i r heq
    obtain ⟨b0, s0⟩ := r
    exact extractAudioBody_ok_log_grows env s i o b0 s0 heq
  · rename_i e s' heq
    have hs := extractAudioBody_err_state env s i o e s' heq
    subst hs
    simp only [logAdd_log]
    exact log_le_append _ _

/-- If `extract_audio` reports success then the output file exists in the
file system it returns (the `success and os.path.exists(output_path)`
check at line 256). -/
theorem extract_audio_true_exists (env : ExtractEnv) (s : SysState)
    (i o : String) (h : (extract_audio env s i o).1 = true) :
    fsHas (extract_audio env s i o).2.fs o = true := by
  unfold extract_audio at *
  revert h
  split
  · rename_i r heq
    intro h
    obtain ⟨b, s₂⟩ := r
    simp only at h
    subst h
    revert heq
    unfold extractAudioBody
    dsimp only [get_audio_info_eq]
    intro heq
    cases hpi : env.probeIn <;> cases hpo : env.probeOut <;>
      rw [hpi, hpo] at heq <;> dsimp only at heq <;>
      repeat' split at heq
    all_goals
      try (simp at heq; done)
    all_goals
      simp only [Except.ok.injEq, Prod.mk.injEq, true_and] at heq
    all_goals
      subst heq
    all_goals
      try simp only [logAdd_fs]
    all_goals
      solve_by_elim [And.right]
  · intro h
    simp at h

/- ### Batch loop lemmas -/

/-- Whatever the item's outcome, its staged input file is gone from the
file system when its loop iteration ends (lines 397-398). -/
theorem processOne_staged_removed (fmt pre : String) (total : Nat)
    (env : ExtractEnv) (i : Nat) (st : BatchState) (name : String) :
    fsHas (processOne fmt pre total env i st name).sys.fs ("/tmp/" ++ name) = false := by
  unfold processOne
  dsimp only
  repeat' split
  all_goals
    first
    | exact fsHas_fsDel_self _ _
    | · rename_i hnot
        simpa using hnot

/-- The output list after one iteration: unchanged on failure, extended by
exactly the item's output path on success. -/
theorem processOne_paths (fmt pre : String) (total : Nat)
    (env : ExtractEnv) (i : Nat) (st : BatchState) (name : String) :
    (processOne fmt pre total env i st name).output_audio_paths =
      st.output_audio_paths ++
        (if (itemExtract fmt pre total env i st name).1 then
          [outputPathFor fmt pre name] else []) := by
  unfold processOne
  dsimp only
  repeat' split
  all_goals simp_all

/-- The success tally after one iteration mirrors the output list. -/
theorem processOne_tally (fmt pre : String) (total : Nat)
    (env : ExtractEnv) (i : Nat) (st : BatchState) (name : String) :
    (processOne fmt pre total env i st name).successful_extractions =
      st.successful_extractions +
        (if (itemExtract fmt pre total env i st name).1 then 1 else 0) := by
  unfold processOne
  dsimp only
  repeat' split
  all_goals simp_all

theorem processOne_log_grows (fmt pre : String) (total : Nat)
    (env : ExtractEnv) (i : Nat) (st : BatchState) (name : String) :
    st.sys.log <+: (processOne fmt pre total env i st name).sys.log := by
  unfold processOne itemExtract
  dsimp only
  repeat' split
  all_goals
    simp only [delFile_log, logAdd_log]
  all_goals
    refine log_le_append_of_le _ ?_
  all_goals
    refine List.IsPrefix.trans ?_ (extract_audio_log_grows _ _ _ _)
  all_goals
    simp only [logAdd_log, addFile_log, List.append_assoc]
  all_goals
    exact log_le_append _ _

/-- Each item's header line is in the log after its iteration. -/
theorem processOne_header_mem (fmt pre : String) (total : Nat)
    (env : ExtractEnv) (i : Nat) (st : BatchState) (name : String) :
    headerLine i total name ∈ (processOne fmt pre total env i st name).sys.log := by
  unfold processOne itemExtract
  dsimp only
  repeat' split
  all_goals
    simp only [delFile_log, logAdd_log]
  all_goals
    refine List.mem_append_left _ ((extract_audio_log_grows _ _ _ _).subset ?_)
  all_goals
    simp

theorem runBatchAux_log_grows (fmt pre : String) (total : Nat)
    (items : List (String × ExtractEnv)) (i : Nat) (st : BatchState) :
    st.sys.log <+: (runBatchAux fmt pre total items i st).sys.log := by
  induction items generalizing i st with
  | nil => exact List.prefix_rfl
  | cons item rest ih =>
    obtain ⟨name, env⟩ := item
    exact (processOne_log_grows fmt pre total env i st name).trans (ih _ _)

/-- Every uploaded item, whatever the outcome of the items before it, gets
its header line into the final log: no earlier failure stops the loop. -/
theorem runBatchAux_header_mem (fmt pre : String) (total : Nat)
    (items : List (String × ExtractEnv)) (i : Nat) (st : BatchState)
    (j : Nat) (hj : j < items.length) :
    headerLine (i + j) total (items.get ⟨j, hj⟩).1 ∈
      (runBatchAux fmt pre total items i st).sys.log := by
  induction items generalizing i st j with
  | nil => exact absurd hj (by simp)
  | cons item rest ih =>
    obtain ⟨name, env⟩ := item
    cases j with
    | zero =>
      exact (runBatchAux_log_grows fmt pre total rest (i + 1) _).subset
        (processOne_header_mem fmt pre total env i st name)
    | succ j =>
      have h := ih (i + 1) (processOne fmt pre total env i st name) j
        (by simpa using Nat.lt_of_succ_lt_succ hj)
      rw [show i + 1 + j = i + (j + 1) by omega] at h
      exact h

/-- The tally equals the length of the output list, provided it did at the
start of the remaining iterations. -/
theorem runBatchAux_tally (fmt pre : String) (total : Nat)
    (items : List (String × ExtractEnv)) (i : Nat) (st : BatchState)
    (h : st.successful_extractions = st.output_audio_paths.length) :
    (runBatchAux fmt pre total items i st).successful_extractions =
      (runBatchAux fmt pre total items i st).output_audio_paths.length := by
  induction items generalizing i st with
  | nil => exact h
  | cons item rest ih =>
    obtain ⟨name, env⟩ := item
    refine ih _ _ ?_
    rw [processOne_paths, processOne_tally, h]
    split <;> simp

/-- A validation exception inside `extract_audio` is caught by its
`except` handler: the call returns `False` with the exception logged, and
the state is otherwise the one from before the call (validation happens
before any side effect). -/
theorem extract_audio_input_error (env : ExtractEnv) (s : SysState)
    (i o : String) (e : ExtractorError)
    (h : validate_input_file s.fs i = .error e) :
    extract_audio env s i o = (false, logAdd s ("오류 발생: " ++ errText e)) := by
  unfold extract_audio extractAudioBody
  rw [h]

/-- Changing a path other than the one being created does not affect
whether the latter exists. -/
theorem fsHas_fsAdd_ne (fs : FS) {p q : String} (h : p ≠ q) :
    fsHas (fsAdd fs q) p = fsHas fs p := by
  unfold fsAdd
  split
  · rfl
  · rw [Bool.eq_iff_iff, fsHas_iff, fsHas_iff]
    simp [h]

/- ### Claims -/

/-- C1: the claim states that `validate_input_file` signals NotFound on a
missing input path *without raising an exception*.  The code raises
`FileNotFoundError` (line 35): at the concrete missing path
`/tmp/video.mp4` on an empty file system the validator returns a raised
exception, not a non-raising rejection. -/
theorem c1_counterexample :
    validate_input_file [] "/tmp/video.mp4" =
      .error (.fileNotFound "입력 파일을 찾을 수 없습니다: /tmp/video.mp4") ∧
    (validate_input_file [] "/tmp/video.mp4").isOk = false := by
  constructor
  · rfl
  · decide

/-- C1 (amended): for every input path that does not exist,
`validate_input_file` rejects it by *raising* `FileNotFoundError` (the
NotFound condition); the exception does not escape the component
boundary, because `extract_audio`'s handler catches it and converts it to
a `False` return. -/
theorem c1_missing_input_raises_not_found (env : ExtractEnv) (s : SysState)
    (p o : String) (h : fsHas s.fs p = false) :
    validate_input_file s.fs p =
      .error (.fileNotFound ("입력 파일을 찾을 수 없습니다: " ++ p)) ∧
    (extract_audio env s p o).1 = false := by
  have hv : validate_input_file s.fs p =
      .error (.fileNotFound ("입력 파일을 찾을 수 없습니다: " ++ p)) := by
    unfold validate_input_file
    rw [h]
    simp
  refine ⟨hv, ?_⟩
  rw [extract_audio_input_error env s p o _ hv]

/-- C1 witness: the amended theorem applied at the missing path
`/tmp/video.mp4` on an empty file system. -/
theorem c1_missing_input_witness :
    fsHas ([] : FS) "/tmp/video.mp4" = false ∧
    (validate_input_file [] "/tmp/video.mp4" =
        .error (.fileNotFound "입력 파일을 찾을 수 없습니다: /tmp/video.mp4") ∧
      (extract_audio {} ⟨[], [], false, false⟩ "/tmp/video.mp4" "/tmp/a.mp3").1 = false) :=
  ⟨by decide,
    c1_missing_input_raises_not_found {} ⟨[], [], false, false⟩
      "/tmp/video.mp4" "/tmp/a.mp3" (by decide)⟩

/-- C2: the claim states that an unsupported extension is rejected with
UnsupportedFormat *whether or not a file exists at that path*.  For the
input validator this fails: the same path `/tmp/a.txt` with its
unsupported extension is rejected with `FileNotFoundError` when absent
and with `ValueError` (UnsupportedFormat) only when present — the
existence check runs first (line 34). -/
theorem c2_counterexample :
    validate_input_file [] "/tmp/a.txt" =
      .error (.fileNotFound "입력 파일을 찾을 수 없습니다: /tmp/a.txt") ∧
    validate_input_file ["/tmp/a.txt"] "/tmp/a.txt" =
      .error (.valueError "지원하지 않는 비디오 형식입니다: .txt") := ⟨rfl, rfl⟩

/-- C2 (amended): for an *existing* input path whose lower-cased extension
is outside the video allow-list, the input validator rejects it with
`ValueError` (UnsupportedFormat); the output validator rejects any path
whose lower-cased extension is outside the audio allow-list with
`ValueError`, and — taking no file-system argument at all — it does so
independently of file existence.  For a missing input path the input
validator raises NotFound instead, regardless of its extension. -/
theorem c2_unsupported_format_rejections (fs : FS) (p q r : String)
    (hp : fsHas fs p = true)
    (hpe : supported_video_formats.contains (pyLower (pyPathSuffix p)) = false)
    (hqe : supported_audio_formats.contains (pyLower (pyPathSuffix q)) = false)
    (hr : fsHas fs r = false) :
    validate_input_file fs p =
      .error (.valueError ("지원하지 않는 비디오 형식입니다: " ++ pyLower (pyPathSuffix p))) ∧
    validate_output_format q =
      .error (.valueError ("지원하지 않는 오디오 형식입니다: " ++ pyLower (pyPathSuffix q))) ∧
    validate_input_file fs r =
      .error (.fileNotFound ("입력 파일을 찾을 수 없습니다: " ++ r)) := by
  refine ⟨?_, ?_, ?_⟩
  · unfold validate_input_file
    rw [hp]
    dsimp only
    rw [hpe]
    simp
  · unfold validate_output_format
    dsimp only
    rw [hqe]
    simp
  · unfold validate_input_file
    rw [hr]
    simp

/-- C2 witness: the amended theorem applied at the existing `/tmp/a.txt`
(unsupported input extension), the output path `/tmp/b.txt` (unsupported
output extension) and the missing `/tmp/c.txt`. -/
theorem c2_unsupported_format_witness :
    (fsHas ["/tmp/a.txt"] "/tmp/a.txt" = true ∧
      supported_video_formats.contains (pyLower (pyPathSuffix "/tmp/a.txt")) = false ∧
      supported_audio_formats.contains (pyLower (pyPathSuffix "/tmp/b.txt")) = false ∧
      fsHas ["/tmp/a.txt"] "/tmp/c.txt" = false) ∧
    (validate_input_file ["/tmp/a.txt"] "/tmp/a.txt" =
        .error (.valueError ("지원하지 않는 비디오 형식입니다: " ++ pyLower (pyPathSuffix "/tmp/a.txt"))) ∧
      validate_output_format "/tmp/b.txt" =
        .error (.valueError ("지원하지 않는 오디오 형식입니다: " ++ pyLower (pyPathSuffix "/tmp/b.txt"))) ∧
      validate_input_file ["/tmp/a.txt"] "/tmp/c.txt" =
        .error (.fileNotFound ("입력 파일을 찾을 수 없습니다: " ++ "/tmp/c.txt"))) :=
  ⟨⟨by decide, by decide, by decide, by decide⟩,
    c2_unsupported_format_rejections ["/tmp/a.txt"] "/tmp/a.txt" "/tmp/b.txt" "/tmp/c.txt"
      (by decide) (by decide) (by decide) (by decide)⟩

/-- C3: the claim states an item is successful *if and only if* the
output file exists after the attempts.  The code requires in addition
that an attempt reported success (`success and os.path.exists`, line
256): with a stale `/tmp/a.mp3` already on disk, a failing ffmpeg run and
a failing MoviePy fallback, the output file exists afterwards and yet the
item is marked failed. -/
theorem c3_counterexample :
    (extract_audio
        { ffmpeg := { returncode := 1, createsOutput := false },
          moviepy := { openRaises := some "boom" } }
        ⟨["/tmp", "/tmp/a.mp4", "/tmp/a.mp3"], [], false, false⟩
        "/tmp/a.mp4" "/tmp/a.mp3").1 = false ∧
    fsHas (extract_audio
        { ffmpeg := { returncode := 1, createsOutput := false },
          moviepy := { openRaises := some "boom" } }
        ⟨["/tmp", "/tmp/a.mp4", "/tmp/a.mp3"], [], false, false⟩
        "/tmp/a.mp4" "/tmp/a.mp3").2.fs "/tmp/a.mp3" = true := by decide

/-- C3 (amended): existence of the output after both attempts is
*necessary* for an item to be marked successful — whenever `extract_audio`
returns `True`, the output file exists in the returned file system; but
it is not sufficient (see the counterexample): the code also requires the
attempt to have reported success. -/
theorem c3_success_requires_existing_output (env : ExtractEnv) (s : SysState)
    (i o : String) (h : (extract_audio env s i o).1 = true) :
    fsHas (extract_audio env s i o).2.fs o = true :=
  extract_audio_true_exists env s i o h

/-- C3 witness: a fully successful run on `/tmp/a.mp4`; the output
`/tmp/a.mp3` exists in the resulting file system. -/
theorem c3_success_witness :
    (extract_audio {} ⟨["/tmp", "/tmp/a.mp4"], [], false, false⟩
        "/tmp/a.mp4" "/tmp/a.mp3").1 = true ∧
    fsHas (extract_audio {} ⟨["/tmp", "/tmp/a.mp4"], [], false, false⟩
        "/tmp/a.mp4" "/tmp/a.mp3").2.fs "/tmp/a.mp3" = true :=
  ⟨by decide,
    c3_success_requires_existing_output {} ⟨["/tmp", "/tmp/a.mp4"], [], false, false⟩
      "/tmp/a.mp4" "/tmp/a.mp3" (by decide)⟩

/-- C4: the claim states that on *every* execution of the fallback
extractor, including ones where an exception occurs, the temp file does
not remain and the decoder handles are closed.  The code has no
`finally`: two concrete failing executions violate it — a video with no
audio track (the `AttributeError` on `audio.write_audiofile`) leaves the
video handle open, and a mid-write failure that already created
`/tmp/a_temp.wav` leaves that temp file on disk. -/
theorem c4_counterexample :
    (extract_audio_with_moviepy { audioIsNone := true }
        ⟨["/tmp", "/tmp/a.mp4"], [], false, false⟩
        "/tmp/a.mp4" "/tmp/a.mp3").2.videoOpen = true ∧
    fsHas (extract_audio_with_moviepy
        { writeRaises := some "disk full", writeCreatedBeforeRaise := true }
        ⟨["/tmp", "/tmp/a.mp4"], [], false, false⟩
        "/tmp/a.mp4" "/tmp/a.mp3").2.fs "/tmp/a_temp.wav" = true := by decide

/-- C4 (amended): on every *exception-free* execution of the fallback
extractor (no decode failure, an audio track present, no encode failure —
a failing format conversion is allowed, since `convert_audio_format`
catches its own exceptions and its result is discarded), the intermediate
temp file does not remain on disk and both decoder handles are closed
before the function returns.  When an exception occurs the cleanup is
skipped (see the counterexample). -/
theorem c4_cleanup_on_exception_free_run (env : MoviepyEnv) (s : SysState)
    (i o : String)
    (h1 : env.openRaises = none) (h2 : env.audioIsNone = false)
    (h3 : env.writeRaises = none)
    (hneq : pyReplace o (pyPathSuffix o) "_temp.wav" ≠ o) :
    (extract_audio_with_moviepy env s i o).1 = true ∧
    (extract_audio_with_moviepy env s i o).2.videoOpen = false ∧
    (extract_audio_with_moviepy env s i o).2.audioOpen = false ∧
    fsHas (extract_audio_with_moviepy env s i o).2.fs
      (pyReplace o (pyPathSuffix o) "_temp.wav") = false := by
  cases he : pyEndsWith o ".wav"
  case false =>
    unfold extract_audio_with_moviepy moviepyBody
    simp [h1, h2, h3, he]
    exact fsHas_fsDel_self _ _
  case true =>
    unfold extract_audio_with_moviepy moviepyBody
    simp [h1, h2, h3, he]
    rw [fsHas_fsAdd_ne _ hneq]
    exact fsHas_fsDel_self _ _

/-- C4 witness: the fully successful default run on `/tmp/a.mp4` with
output `/tmp/a.mp3`; the temp file `/tmp/a_temp.wav` is gone and both
handles closed. -/
theorem c4_cleanup_witness :
    (({} : MoviepyEnv).openRaises = none ∧ ({} : MoviepyEnv).audioIsNone = false ∧
      ({} : MoviepyEnv).writeRaises = none ∧
      pyReplace "/tmp/a.mp3" (pyPathSuffix "/tmp/a.mp3") "_temp.wav" ≠ "/tmp/a.mp3") ∧
    ((extract_audio_with_moviepy {} ⟨["/tmp", "/tmp/a.mp4"], [], false, false⟩
        "/tmp/a.mp4" "/tmp/a.mp3").1 = true ∧
      (extract_audio_with_moviepy {} ⟨["/tmp", "/tmp/a.mp4"], [], false, false⟩
        "/tmp/a.mp4" "/tmp/a.mp3").2.videoOpen = false ∧
      (extract_audio_with_moviepy {} ⟨["/tmp", "/tmp/a.mp4"], [], false, false⟩
        "/tmp/a.mp4" "/tmp/a.mp3").2.audioOpen = false ∧
      fsHas (extract_audio_with_moviepy {} ⟨["/tmp", "/tmp/a.mp4"], [], false, false⟩
        "/tmp/a.mp4" "/tmp/a.mp3").2.fs
        (pyReplace "/tmp/a.mp3" (pyPathSuffix "/tmp/a.mp3") "_temp.wav") = false) :=
  ⟨⟨rfl, rfl, rfl, by decide⟩,
    c4_cleanup_on_exception_free_run {} ⟨["/tmp", "/tmp/a.mp4"], [], false, false⟩
      "/tmp/a.mp4" "/tmp/a.mp3" rfl rfl rfl (by decide)⟩

/-- C5: the claim states that an exception during the *format-conversion*
step makes the fallback extractor return `false`.  It does not: the
result of `convert_audio_format` is discarded (line 142), so with pydub
raising during conversion the exception is caught and logged inside the
converter but `extract_audio_with_moviepy` still returns `True`. -/
theorem c5_counterexample :
    (extract_audio_with_moviepy { conv := { fromWavRaises := some "pydub error" } }
        ⟨["/tmp", "/tmp/a.mp4"], [], false, false⟩
        "/tmp/a.mp4" "/tmp/a.mp3").1 = true ∧
    "오디오 형식 변환 중 오류 발생: pydub error" ∈
      (extract_audio_with_moviepy { conv := { fromWavRaises := some "pydub error" } }
        ⟨["/tmp", "/tmp/a.mp4"], [], false, false⟩
        "/tmp/a.mp4" "/tmp/a.mp3").2.log := by decide

/-- C5 (amended): the fallback extractor always returns a boolean and no
exception escapes it (it is a total function); an exception during decode
(opening the clip, or a missing audio track) or during encode (writing
the intermediate file) is caught, logged, and makes it return `false` —
indeed it returns `true` exactly when none of those occur; an exception
during the format-conversion step is caught and logged *inside
`convert_audio_format`*, whose `false` result is discarded, so the
fallback still returns `true`. -/
theorem c5_exception_to_false_except_conversion (env : MoviepyEnv)
    (s : SysState) (i o : String) :
    ((extract_audio_with_moviepy env s i o).1 = true ↔
      (env.openRaises = none ∧ env.audioIsNone = false ∧ env.writeRaises = none)) ∧
    (∀ e, env.openRaises = some e →
      ("MoviePy 추출 중 오류 발생: " ++ e) ∈
        (extract_audio_with_moviepy env s i o).2.log) ∧
    (∀ e, env.conv.fromWavRaises = some e → env.openRaises = none →
      env.audioIsNone = false → env.writeRaises = none →
      pyEndsWith o ".wav" = false →
      ((extract_audio_with_moviepy env s i o).1 = true ∧
        ("오디오 형식 변환 중 오류 발생: " ++ e) ∈
          (extract_audio_with_moviepy env s i o).2.log)) := by
  refine ⟨?_, ?_, ?_⟩
  · cases ho : env.openRaises <;> cases ha : env.audioIsNone <;>
      cases hw : env.writeRaises <;>
      simp [extract_audio_with_moviepy, moviepyBody, ho, ha, hw]
  · intro e he
    simp [extract_audio_with_moviepy, moviepyBody, he, errText]
  · intro e hc ho ha hw hends
    simp [extract_audio_with_moviepy, moviepyBody, convert_audio_format,
      ho, ha, hw, hends, hc, errText]

/-- C5 witness: a run where MoviePy decode fails (`VideoFileClip`
raises); the fallback returns `false` and logs the exception. -/
theorem c5_exception_witness :
    ¬((extract_audio_with_moviepy { openRaises := some "codec missing" }
          ⟨["/tmp", "/tmp/a.mp4"], [], false, false⟩
          "/tmp/a.mp4" "/tmp/a.mp3").1 = true) ∧
    ("MoviePy 추출 중 오류 발생: " ++ "codec missing") ∈
      (extract_audio_with_moviepy { openRaises := some "codec missing" }
          ⟨["/tmp", "/tmp/a.mp4"], [], false, false⟩
          "/tmp/a.mp4" "/tmp/a.mp3").2.log := by
  have h := c5_exception_to_false_except_conversion
    { openRaises := some "codec missing" }
    ⟨["/tmp", "/tmp/a.mp4"], [], false, false⟩ "/tmp/a.mp4" "/tmp/a.mp3"
  refine ⟨fun htrue => ?_, h.2.1 "codec missing" rfl⟩
  exact absurd (h.1.mp htrue).1 (by decide)

/-- C6: the primary extractor builds the external command exactly per the
format table — mp3: libmp3lame at 320k/44100/2ch; flac: flac at
compression level 8; wav: pcm_s16le; anything else: stream copy — always
with `-vn` (video stripped) and `-y` (overwrite); it returns success
exactly when `subprocess.run` did not raise and exited 0, and on a
non-zero exit it logs the stderr text instead of raising. -/
theorem c6_ffmpeg_command_profile (env : FfmpegBehavior) (s : SysState)
    (i o f : String) :
    ffmpegCmd i o ".mp3" =
      ["ffmpeg", "-i", i, "-vn", "-acodec", "libmp3lame", "-ab", "320k",
       "-ar", "44100", "-ac", "2", "-y", o] ∧
    ffmpegCmd i o ".flac" =
      ["ffmpeg", "-i", i, "-vn", "-acodec", "flac", "-compression_level",
       "8", "-y", o] ∧
    ffmpegCmd i o ".wav" =
      ["ffmpeg", "-i", i, "-vn", "-acodec", "pcm_s16le", "-y", o] ∧
    (f ≠ ".mp3" → f ≠ ".flac" → f ≠ ".wav" →
      ffmpegCmd i o f = ["ffmpeg", "-i", i, "-vn", "-acodec", "copy", "-y", o]) ∧
    "-vn" ∈ ffmpegCmd i o f ∧
    "-y" ∈ ffmpegCmd i o f ∧
    ((extract_audio_with_ffmpeg env s i o f).1 = true ↔
      env.raises = none ∧ env.returncode = 0) ∧
    (env.raises = none → env.returncode ≠ 0 →
      ("ffmpeg 오류: " ++ env.stderr) ∈
        (extract_audio_with_ffmpeg env s i o f).2.log) := by
  refine ⟨by simp [ffmpegCmd], by simp [ffmpegCmd], by simp [ffmpegCmd],
    ?_, ?_, ?_, ?_, ?_⟩
  · intro hm hf hw
    simp [ffmpegCmd, hm, hf, hw]
  · unfold ffmpegCmd
    split <;> try split <;> try split
    all_goals simp
  · unfold ffmpegCmd
    split <;> try split <;> try split
    all_goals simp
  · cases hr : env.raises
    · by_cases hc : env.returncode = 0 <;>
        simp [extract_audio_with_ffmpeg, hr, hc]
    · simp [extract_audio_with_ffmpeg, hr]
  · intro h0 hnz
    simp [extract_audio_with_ffmpeg, h0, hnz]

/-- C6 witness: a run of format `.ogg` (outside the three special cases)
with exit code 1 and stderr `boom`: the command is the stream-copy
profile and the failure is logged, not raised. -/
theorem c6_ffmpeg_witness :
    ffmpegCmd "/tmp/a.mp4" "/tmp/a.ogg" ".ogg" =
      ["ffmpeg", "-i", "/tmp/a.mp4", "-vn", "-acodec", "copy", "-y", "/tmp/a.ogg"] ∧
    (extract_audio_with_ffmpeg { returncode := 1, stderr := "boom" }
        ⟨["/tmp"], [], false, false⟩ "/tmp/a.mp4" "/tmp/a.ogg" ".ogg").1 = false ∧
    ("ffmpeg 오류: " ++ "boom") ∈
      (extract_audio_with_ffmpeg { returncode := 1, stderr := "boom" }
        ⟨["/tmp"], [], false, false⟩ "/tmp/a.mp4" "/tmp/a.ogg" ".ogg").2.log := by
  have h := c6_ffmpeg_command_profile { returncode := 1, stderr := "boom" }
    ⟨["/tmp"], [], false, false⟩ "/tmp/a.mp4" "/tmp/a.ogg" ".ogg"
  exact ⟨h.2.2.2.1 (by decide) (by decide) (by decide), by decide,
    h.2.2.2.2.2.2.2 rfl (by decide)⟩

/-- C7: failures are isolated per item — after any item's iteration its
staged input `/tmp/{name}` is gone whatever the outcome; every uploaded
item's header line reaches the final log whatever the outcomes of the
items before it (the loop never aborts); and a validation failure inside
`extract_audio` is caught and converted to a `False` return with a logged
message, so no exception reaches the batch loop. -/
theorem c7_single_item_failure_isolated :
    (∀ (fmt pre : String) (total : Nat) (env : ExtractEnv) (i : Nat)
        (st : BatchState) (name : String),
      fsHas (processOne fmt pre total env i st name).sys.fs
        ("/tmp/" ++ name) = false) ∧
    (∀ (fmt pre : String) (total : Nat) (items : List (String × ExtractEnv))
        (i : Nat) (st : BatchState) (j : Nat) (hj : j < items.length),
      headerLine (i + j) total (items.get ⟨j, hj⟩).1 ∈
        (runBatchAux fmt pre total items i st).sys.log) ∧
    (∀ (env : ExtractEnv) (s : SysState) (i o : String) (e : ExtractorError),
      validate_input_file s.fs i = .error e →
      extract_audio env s i o =
        (false, logAdd s ("오류 발생: " ++ errText e))) :=
  ⟨processOne_staged_removed, runBatchAux_header_mem, extract_audio_input_error⟩

/-- C7 witness: a one-item batch — the staged `/tmp/a.mp4` is removed and
the item's header is in the log — plus a caught validation failure on a
missing input. -/
theorem c7_isolation_witness :
    fsHas (processOne "mp3" "" 1 {} 0 ⟨⟨["/tmp"], [], false, false⟩, [], 0⟩
        "a.mp4").sys.fs ("/tmp/" ++ "a.mp4") = false ∧
    headerLine 0 1 "a.mp4" ∈
      (runBatchAux "mp3" "" 1 [("a.mp4", {})] 0
        ⟨⟨["/tmp"], [], false, false⟩, [], 0⟩).sys.log ∧
    extract_audio {} ⟨[], [], false, false⟩ "/tmp/missing.mp4" "/tmp/a.mp3" =
      (false, logAdd ⟨[], [], false, false⟩
        ("오류 발생: " ++
          errText (.fileNotFound "입력 파일을 찾을 수 없습니다: /tmp/missing.mp4"))) := by
  have h := c7_single_item_failure_isolated
  refine ⟨h.1 "mp3" "" 1 {} 0 _ "a.mp4", ?_,
    h.2.2 {} ⟨[], [], false, false⟩ "/tmp/missing.mp4" "/tmp/a.mp3" _ rfl⟩
  exact h.2.1 "mp3" "" 1 [("a.mp4", {})] 0
    ⟨⟨["/tmp"], [], false, false⟩, [], 0⟩ 0 (by decide)

/-- C8: the batch loop appends an output path exactly when that item's
`extract_audio` call returned `True`, and in that case the path exists in
the file system returned by that very call — the state in which the
append happens; and both download paths re-check existence before
reading: the individual buttons read only paths that still exist, and the
ZIP bundle contains only entries whose source path still exists. -/
theorem c8_outputs_existed_when_appended :
    (∀ (fmt pre : String) (total : Nat) (env : ExtractEnv) (i : Nat)
        (st : BatchState) (name : String),
      (processOne fmt pre total env i st name).output_audio_paths =
        st.output_audio_paths ++
          (if (itemExtract fmt pre total env i st name).1 then
            [outputPathFor fmt pre name] else []) ∧
      ((itemExtract fmt pre total env i st name).1 = true →
        fsHas (itemExtract fmt pre total env i st name).2.fs
          (outputPathFor fmt pre name) = true)) ∧
    (∀ (fs : FS) (paths : List String) (p : String),
      p ∈ individualDownloadReads fs paths → fsHas fs p = true) ∧
    (∀ (fs : FS) (paths : List String) (fmt : String) (e : String × String),
      e ∈ zipDownloadData fs paths fmt → fsHas fs e.2 = true) := by
  refine ⟨?_, ?_, ?_⟩
  · intro fmt pre total env i st name
    refine ⟨processOne_paths fmt pre total env i st name, ?_⟩
    intro h
    exact extract_audio_true_exists env _ _ _ h
  · intro fs paths p hp
    simp only [individualDownloadReads, List.mem_filter] at hp
    exact hp.2
  · intro fs paths fmt e he
    simp only [zipDownloadData, create_zip_file, List.mem_map,
      List.mem_filter] at he
    obtain ⟨p, ⟨-, hf⟩, hpe⟩ := he
    rw [← hpe]
    exact hf

/-- C8 witness: a successful one-item batch appends its output `/tmp/a.mp3`,
which exists in the state of the appending call; a stale path is skipped
by both download paths. -/
theorem c8_outputs_witness :
    ((processOne "mp3" "" 1 {} 0 ⟨⟨["/tmp"], [], false, false⟩, [], 0⟩
        "a.mp4").output_audio_paths =
      [] ++ (if (itemExtract "mp3" "" 1 {} 0 ⟨⟨["/tmp"], [], false, false⟩, [], 0⟩
          "a.mp4").1 then [outputPathFor "mp3" "" "a.mp4"] else []) ∧
      fsHas (itemExtract "mp3" "" 1 {} 0 ⟨⟨["/tmp"], [], false, false⟩, [], 0⟩
        "a.mp4").2.fs (outputPathFor "mp3" "" "a.mp4") = true) ∧
    fsHas ["/tmp/a.mp3"] "/tmp/a.mp3" = true ∧
    fsHas ["/tmp/a.mp3"] "/tmp/gone.mp3" = false ∧
    individualDownloadReads ["/tmp/a.mp3"] ["/tmp/a.mp3", "/tmp/gone.mp3"] =
      ["/tmp/a.mp3"] ∧
    zipDownloadData ["/tmp/a.mp3"] ["/tmp/a.mp3", "/tmp/gone.mp3"] "mp3" =
      [("a.mp3", "/tmp/a.mp3")] := by
  have h := c8_outputs_existed_when_appended
  have h1 := h.1 "mp3" "" 1 {} 0 ⟨⟨["/tmp"], [], false, false⟩, [], 0⟩ "a.mp4"
  exact ⟨⟨h1.1, h1.2 (by decide)⟩, by decide, by decide, by decide, by decide⟩

/-- C9: the in-memory archive produced by `create_zip_file` contains an
entry exactly for each listed path that exists at bundling time, stored
under its base name with the directory discarded; missing paths
contribute nothing (they are skipped silently — the function is total and
raises nothing by construction). -/
theorem c9_zip_contains_exactly_existing (fs : FS) (file_paths : List String)
    (zip_name : String) (e : String × String) :
    e ∈ create_zip_file fs file_paths zip_name ↔
      (e.2 ∈ file_paths ∧ fsHas fs e.2 = true ∧ e.1 = pyBasename e.2) := by
  unfold create_zip_file
  constructor
  · intro he
    simp only [List.mem_map, List.mem_filter] at he
    obtain ⟨p, ⟨hp, hf⟩, hpe⟩ := he
    rw [← hpe]
    exact ⟨hp, hf, rfl⟩
  · rintro ⟨h1, h2, h3⟩
    obtain ⟨a, b⟩ := e
    simp only at h1 h2 h3
    subst h3
    exact List.mem_map_of_mem _ (List.mem_filter.mpr ⟨h1, h2⟩)

/-- C10: at the end of every batch run the success tally equals the number
of stored output paths: both are reset together before the loop and
updated together exactly once per successful item. -/
theorem c10_tally_matches_output_list (fmt pre : String)
    (items : List (String × ExtractEnv)) (fs : FS) :
    (batchRun fmt pre items fs).successful_extractions =
      (batchRun fmt pre items fs).output_audio_paths.length :=
  runBatchAux_tally fmt pre items.length items 0 _ rfl

end VideoAudioExtractor
